import Mathlib

/-!
Verification development for `dm-data-relationship-breaker` (`src/main.py`).

The program validates CLI arguments, generates `num_records` fake
`(name, address)` records for a city with the `faker` library, shuffles the
address column with `random.shuffle`, and writes the result to a CSV file.

Embedding conventions:
* Python dynamic values passed to `validate_input` are modelled by `PyVal`
  (string, integer, or `None`), so the `isinstance` checks are meaningful.
* The `faker` library is external to the repository; it is modelled by an
  abstract `FakerModel`: a deterministic pseudo-random state type with
  name/address generators and a seeding function.  Everything the code does
  with the generated strings (the city check and append) is embedded from the
  source.
* The stdlib `random` module's global stream (used only by `random.shuffle`)
  is modelled as a tape of naturals consumed by `_randbelow`; `random.shuffle`
  is CPython's Fisher–Yates loop `for i in reversed(range(1, len(x)))`.
  This stream is distinct from the Faker stream, as in CPython: `Faker.seed`
  seeds Faker's own generator, not the `random` module's global instance.
* `str.lower` is modelled per-character (ASCII) and Python's substring test
  `needle in hay` by an executable scan `subL`.
* The CSV writer follows the `csv` module's `excel` dialect with
  QUOTE_MINIMAL: a field is quoted iff it contains a comma, a double quote,
  CR or LF; quotes are doubled inside quoted fields; rows end with CRLF.
-/

/-- Python value as seen by `validate_input`: a string, an int, or `None`. -/
inductive PyVal where
  | str : String → PyVal
  | int : Int → PyVal
  | none : PyVal
deriving DecidableEq

/-- Truthiness-and-type check `isinstance(v, str) and v` for a `PyVal`. -/
def isNonEmptyStr : PyVal → Bool
  | .str s => !(s == "")
  | _ => false

/-- Check `isinstance(v, int) and v > 0` for a `PyVal`. -/
def isPosInt : PyVal → Bool
  | .int v => decide (0 < v)
  | _ => false

/-- Check `isinstance(v, int)` for a `PyVal`. -/
def isIntVal : PyVal → Bool
  | .int _ => true
  | _ => false

/-- Embedding of `validate_input` (src/main.py:114-134): the four checks in
source order, each raising `ValueError` with the source's message. -/
def validate_input (city num_records output_file seed : PyVal) :
    Except String Unit :=
  if !(isNonEmptyStr city) then
    Except.error "City must be a non-empty string."
  else if !(isPosInt num_records) then
    Except.error "Number of records must be a positive integer."
  else if !(isNonEmptyStr output_file) then
    Except.error "Output file must be a non-empty string."
  else if seed != PyVal.none && !(isIntVal seed) then
    Except.error "Seed must be an integer."
  else
    Except.ok ()

/-- Model of Python `str.lower()` (per-character, ASCII). -/
def pyLower (s : String) : String := ⟨s.data.map Char.toLower⟩

/-- Executable substring scan: does `needle` occur contiguously in the list? -/
def subL (needle : List Char) : List Char → Bool
  | [] => needle.isEmpty
  | c :: t => needle.isPrefixOf (c :: t) || subL needle t

/-- Model of Python `needle in hay` for strings. -/
def pyIn (needle hay : String) : Bool := subL needle.data hay.data

/-- Abstract model of the `faker` library: a deterministic generator state,
a class-level seeding function (`Faker.seed`), and name/address producers
that advance the state. -/
structure FakerModel where
  State : Type
  seedState : Int → State
  fakeName : State → String × State
  fakeAddress : State → String × State

/-- Body of the generation loop of `generate_fake_data`
(src/main.py:67-76): draw a name, draw an address, append `", " + city`
when `city.lower() not in address.lower()`, `num_records` times. -/
def genLoop (M : FakerModel) (city : String) :
    Nat → M.State → List (String × String) × M.State
  | 0, g => ([], g)
  | k + 1, g =>
    let n := M.fakeName g
    let a := M.fakeAddress n.2
    let addr :=
      if pyIn (pyLower city) (pyLower a.1) then a.1 else a.1 ++ ", " ++ city
    let rest := genLoop M city k a.2
    ((n.1, addr) :: rest.1, rest.2)

/-- Embedding of `generate_fake_data` (src/main.py:50-76).  `num_records` is
a Python int; `range(n)` iterates `n.toNat` times.  When `seed` is provided,
`Faker.seed(seed)` resets the Faker stream, discarding the incoming state. -/
def generate_fake_data (M : FakerModel) (num_records : Int) (city : String)
    (seed : Option Int) (g : M.State) : List (String × String) × M.State :=
  let g0 := match seed with
    | some s => M.seedState s
    | none => g
  genLoop M city num_records.toNat g0

/-- Model of `random._randbelow n` on the stdlib stream, viewed as a tape of
naturals: consume the head reduced mod `n` (an arbitrary value below `n`). -/
def randbelow (n : Nat) : List Nat → Nat × List Nat
  | [] => (0, [])
  | h :: t => (h % n, t)

/-- Swap of two positions of a list (`x[i], x[j] = x[j], x[i]`); identity
when either index is out of range. -/
def listSwap (l : List α) (i j : Nat) : List α :=
  match l.get? i, l.get? j with
  | some a, some b => (l.set i b).set j a
  | _, _ => l

/-- Loop of CPython's `random.shuffle`: `for i in reversed(range(1, len(x)))`
pick `j = _randbelow(i + 1)` and swap `x[i]` with `x[j]`. -/
def pyShuffleAux (x : List α) : Nat → List Nat → List α × List Nat
  | 0, g => (x, g)
  | i + 1, g =>
    let jg := randbelow (i + 2) g
    pyShuffleAux (listSwap x (i + 1) jg.1) i jg.2

/-- Embedding of `random.shuffle` on the stdlib stream tape. -/
def pyShuffle (x : List α) (g : List Nat) : List α × List Nat :=
  pyShuffleAux x (x.length - 1) g

/-- Embedding of `reassign_addresses` (src/main.py:78-93): extract the
address column, shuffle it in place with the stdlib stream, and re-pair the
`i`-th original name with the `i`-th shuffled address. -/
def reassign_addresses (data : List (String × String)) (g : List Nat) :
    List (String × String) × List Nat :=
  let addresses := data.map Prod.snd
  let p := pyShuffle addresses g
  ((data.zip p.1).map (fun q => (q.1.1, q.2)), p.2)

/-- Pipeline of `main` after validation: generation with a given seed
followed by reassignment, with the two random streams explicit
(src/main.py:152-155). -/
def pipeline (M : FakerModel) (num_records : Int) (city : String) (seed : Int)
    (fg : M.State) (rg : List Nat) : List (String × String) × List Nat :=
  let d := generate_fake_data M num_records city (some seed) fg
  reassign_addresses d.1 rg

/-- Concrete instantiation of the abstract Faker model, used only to
evaluate theorems at concrete inputs: a counter state with distinct
outputs per draw. -/
def trivialFaker : FakerModel where
  State := Nat
  seedState s := s.toNat
  fakeName g := ("N" ++ Nat.repr g, g + 1)
  fakeAddress g := ("A" ++ Nat.repr g, g + 1)

/-- Character that forces quoting under QUOTE_MINIMAL in the `excel`
dialect: delimiter, quote char, or a line-terminator character. -/
def isCsvSpecial (c : Char) : Bool :=
  c = ',' || c = '"' || c = '\r' || c = '\n'

/-- Double every double-quote character (the `doublequote=True` escaping of
the `csv` module). -/
def escQuotes : List Char → List Char
  | [] => []
  | c :: cs => if c = '"' then '"' :: '"' :: escQuotes cs else c :: escQuotes cs

/-- Encode one CSV field (QUOTE_MINIMAL): quote and escape exactly when the
field contains a special character. -/
def encFieldL (l : List Char) : List Char :=
  if l.any isCsvSpecial then '"' :: (escQuotes l ++ ['"']) else l

/-- Encode one two-field CSV row, terminated by CRLF (`csv.writer` with
`newline=''`). -/
def encRowL (a b : List Char) : List Char :=
  encFieldL a ++ ',' :: (encFieldL b ++ ['\r', '\n'])

/-- Serialize the data rows of the file. -/
def csvRowsL : List (List Char × List Char) → List Char
  | [] => []
  | p :: ps => encRowL p.1 p.2 ++ csvRowsL ps

/-- File content produced by `write_data_to_csv` (src/main.py:104-108):
header row `Name,Address`, then one row per record. -/
def writeCSV (data : List (String × String)) : String :=
  ⟨encRowL "Name".data "Address".data ++
    csvRowsL (data.map (fun p => (p.1.data, p.2.data)))⟩

/-- Parser state: inside an unquoted field (or at a field start), inside a
quoted field, or just after a quote inside a quoted field. -/
inductive CsvSt where
  | plain : CsvSt
  | quoted : CsvSt
  | quotedEnd : CsvSt
deriving DecidableEq

/-- Modelled from the spec: a standard CSV reader (comma-delimited,
double-quote escaping, CR/LF/CRLF row terminators), used to parse the
written file back; the repository itself contains no reader.  `fld` is the
current field, `row` the fields of the current row, `acc` the finished
rows. -/
def csvRun : CsvSt → List Char → List Char → List (List Char) →
    List (List (List Char)) → List (List (List Char))
  | .plain, [], fld, row, acc =>
    if row.isEmpty && fld.isEmpty then acc else acc ++ [row ++ [fld]]
  | .quoted, [], fld, row, acc => acc ++ [row ++ [fld]]
  | .quotedEnd, [], fld, row, acc => acc ++ [row ++ [fld]]
  | .plain, c :: cs, fld, row, acc =>
    if c = '"' && fld.isEmpty then csvRun .quoted cs fld row acc
    else if c = ',' then csvRun .plain cs [] (row ++ [fld]) acc
    else if c = '\r' then
      match cs with
      | '\n' :: cs2 => csvRun .plain cs2 [] [] (acc ++ [row ++ [fld]])
      | cs3 => csvRun .plain cs3 [] [] (acc ++ [row ++ [fld]])
    else if c = '\n' then csvRun .plain cs [] [] (acc ++ [row ++ [fld]])
    else csvRun .plain cs (fld ++ [c]) row acc
  | .quoted, c :: cs, fld, row, acc =>
    if c = '"' then csvRun .quotedEnd cs fld row acc
    else csvRun .quoted cs (fld ++ [c]) row acc
  | .quotedEnd, c :: cs, fld, row, acc =>
    if c = '"' then csvRun .quoted cs (fld ++ ['"']) row acc
    else if c = ',' then csvRun .plain cs [] (row ++ [fld]) acc
    else if c = '\r' then
      match cs with
      | '\n' :: cs2 => csvRun .plain cs2 [] [] (acc ++ [row ++ [fld]])
      | cs3 => csvRun .plain cs3 [] [] (acc ++ [row ++ [fld]])
    else if c = '\n' then csvRun .plain cs [] [] (acc ++ [row ++ [fld]])
    else csvRun .plain cs (fld ++ [c]) row acc
termination_by _ input _ _ _ => input.length
decreasing_by all_goals simp_wf <;> omega

/-- Parse a CSV file into its rows of string fields. -/
def parseCSV (s : String) : List (List String) :=
  (csvRun .plain s.data [] [] []).map (fun r => r.map (fun f => ⟨f⟩))

/-- Python exception values relevant to the embedded control flow. -/
inductive PyExc where
  | valueError : String → PyExc
  | ioError : String → PyExc
  | other : String → PyExc
deriving DecidableEq

/-- Embedding of `write_data_to_csv` (src/main.py:95-112).  The file system
is abstracted by `fs`, giving for each path the outcome of opening and
writing it.  On success the CSV content is produced; on failure the caught
exception is logged and re-raised unchanged (`except Exception as e: ...
raise`). -/
def write_data_to_csv (data : List (String × String)) (output_file : String)
    (fs : String → Except PyExc Unit) : Except PyExc String :=
  match fs output_file with
  | Except.ok _ => Except.ok (writeCSV data)
  | Except.error e => Except.error e

/-- Embedding of `main` (src/main.py:137-167) after argument parsing:
validate, generate, reassign, write; `ValueError` and any other exception
are caught at top level and mapped to exit code 1, success exits 0. -/
def main_run (city num_records output_file seedV : PyVal) (M : FakerModel)
    (fg : M.State) (rg : List Nat) (fs : String → Except PyExc Unit) : Nat :=
  match validate_input city num_records output_file seedV with
  | Except.error _ => 1
  | Except.ok _ =>
    match city, num_records, output_file with
    | .str c, .int n, .str out =>
      let seed : Option Int := match seedV with
        | .int i => some i
        | _ => Option.none
      let d := generate_fake_data M n c seed fg
      let rd := reassign_addresses d.1 rg
      match write_data_to_csv rd.1 out fs with
      | Except.error _ => 1
      | Except.ok _ => 0
    | _, _, _ => 1


/-- Invalid-argument condition as the specification states it: city empty or
not a string; record count not a positive integer; output file empty or not
a string; seed provided and not an integer. -/
def specInvalid (city num_records output_file seed : PyVal) : Prop :=
  (∀ x, city ≠ PyVal.str x) ∨ city = PyVal.str "" ∨
  (∀ v, num_records ≠ PyVal.int v) ∨
  (∃ v, num_records = PyVal.int v ∧ v ≤ 0) ∨
  (∀ x, output_file ≠ PyVal.str x) ∨ output_file = PyVal.str "" ∨
  (seed ≠ PyVal.none ∧ ∀ v, seed ≠ PyVal.int v)

/-! ### Helper lemmas -/

theorem genLoop_length (M : FakerModel) (city : String) :
    ∀ (k : Nat) (g : M.State), (genLoop M city k g).1.length = k := by
  intro k
  induction k with
  | zero => intro g; rfl
  | succ k ih => intro g; simp [genLoop, ih]

theorem isPrefixOf_self_append (a b : List Char) :
    a.isPrefixOf (a ++ b) = true := by
  induction a with
  | nil => simp [List.isPrefixOf]
  | cons c t ih => simp [List.isPrefixOf, ih]

theorem subL_of_isPrefixOf (needle : List Char) :
    ∀ (pre rest : List Char), needle.isPrefixOf rest = true →
      subL needle (pre ++ rest) = true := by
  intro pre
  induction pre with
  | nil =>
    intro rest h
    cases rest with
    | nil =>
      cases needle with
      | nil => rfl
      | cons c t => simp [List.isPrefixOf] at h
    | cons c t => simp [subL, h]
  | cons p ps ih =>
    intro rest h
    simp [subL, ih rest h]

theorem pyLower_append (s t : String) :
    pyLower (s ++ t) = pyLower s ++ pyLower t := by
  simp only [pyLower, String.data_append, List.map_append]
  rfl

theorem pyIn_append_right (pre needle : String) :
    pyIn needle (pre ++ needle) = true := by
  have h : needle.data.isPrefixOf needle.data = true := by
    have := isPrefixOf_self_append needle.data []
    simp only [List.append_nil] at this
    exact this
  simpa [pyIn] using subL_of_isPrefixOf needle.data pre.data needle.data h

theorem genLoop_city_mem (M : FakerModel) (city : String) :
    ∀ (k : Nat) (g : M.State) (pair : String × String),
      pair ∈ (genLoop M city k g).1 →
      pyIn (pyLower city) (pyLower pair.2) = true := by
  intro k
  induction k with
  | zero => intro g pair h; simp [genLoop] at h
  | succ k ih =>
    intro g pair h
    simp only [genLoop, List.mem_cons] at h
    rcases h with h | h
    · subst h
      by_cases hc : pyIn (pyLower city) (pyLower (M.fakeAddress (M.fakeName g).2).1) = true
      · simp [hc]
      · simp only [hc, if_neg, Bool.not_eq_true] at *
        have : pyLower ((M.fakeAddress (M.fakeName g).2).1 ++ ", " ++ city) =
            (pyLower ((M.fakeAddress (M.fakeName g).2).1 ++ ", ")) ++ pyLower city := by
          rw [pyLower_append]
        simp [hc, this, pyIn_append_right]
    · exact ih _ pair h

theorem listSwap_length (l : List α) (i j : Nat) :
    (listSwap l i j).length = l.length := by
  unfold listSwap
  cases h1 : l.get? i <;> cases h2 : l.get? j <;> simp

theorem get_cons_set_perm :
    ∀ (t : List α) (j : Nat) (h : j < t.length) (a : α),
      List.Perm ((t.get ⟨j, h⟩) :: t.set j a) (a :: t) := by
  intro t
  induction t with
  | nil => intro j h a; simp at h
  | cons b s ih =>
    intro j h a
    cases j with
    | zero => simpa [List.set] using List.Perm.swap a b s
    | succ k =>
      have hk : k < s.length := by simpa using h
      have step : List.Perm ((s.get ⟨k, hk⟩) :: b :: s.set k a)
          (b :: (s.get ⟨k, hk⟩) :: s.set k a) :=
        List.Perm.swap b (s.get ⟨k, hk⟩) (s.set k a)
      have mid : List.Perm (b :: (s.get ⟨k, hk⟩) :: s.set k a) (b :: a :: s) :=
        List.Perm.cons b (ih k hk a)
      have fin : List.Perm (b :: a :: s) (a :: b :: s) := List.Perm.swap a b s
      simpa [List.set] using (step.trans mid).trans fin

theorem set_set_get_perm :
    ∀ (l : List α) (i j : Nat) (hi : i < l.length) (hj : j < l.length),
      List.Perm ((l.set i (l.get ⟨j, hj⟩)).set j (l.get ⟨i, hi⟩)) l := by
  intro l
  induction l with
  | nil => intro i j hi hj; simp at hi
  | cons c t ih =>
    intro i j hi hj
    cases i with
    | zero =>
      cases j with
      | zero => simp [List.set]
      | succ k =>
        have hk : k < t.length := by simpa using hj
        simpa [List.set] using get_cons_set_perm t k hk c
    | succ m =>
      cases j with
      | zero =>
        have hm : m < t.length := by simpa using hi
        simpa [List.set] using get_cons_set_perm t m hm c
      | succ k =>
        have hm : m < t.length := by simpa using hi
        have hk : k < t.length := by simpa using hj
        simpa [List.set] using List.Perm.cons c (ih m k hm hk)

theorem listSwap_perm (l : List α) (i j : Nat) : List.Perm (listSwap l i j) l := by
  unfold listSwap
  cases h1 : l.get? i with
  | none => simp
  | some a =>
    cases h2 : l.get? j with
    | none => simp
    | some b =>
      rw [List.get?_eq_getElem?] at h1 h2
      rw [List.getElem?_eq_some_iff] at h1 h2
      obtain ⟨hi, ha⟩ := h1
      obtain ⟨hj, hb⟩ := h2
      have ha' : a = l.get ⟨i, hi⟩ := by simp [← ha, List.get_eq_getElem]
      have hb' : b = l.get ⟨j, hj⟩ := by simp [← hb, List.get_eq_getElem]
      rw [ha', hb']
      exact set_set_get_perm l i j hi hj

theorem pyShuffleAux_perm :
    ∀ (i : Nat) (x : List α) (g : List Nat), List.Perm (pyShuffleAux x i g).1 x := by
  intro i
  induction i with
  | zero => intro x g; exact List.Perm.refl x
  | succ k ih =>
    intro x g
    exact (ih _ _).trans (listSwap_perm x (k + 1) (randbelow (k + 2) g).1)

theorem pyShuffle_perm (x : List α) (g : List Nat) : List.Perm (pyShuffle x g).1 x :=
  pyShuffleAux_perm _ x g

theorem pyShuffle_length (x : List α) (g : List Nat) :
    (pyShuffle x g).1.length = x.length :=
  (pyShuffle_perm x g).length_eq

theorem zip_repair_map_fst (l2 : List String) :
    ∀ (l1 : List (String × String)), l1.length ≤ l2.length →
      ((l1.zip l2).map (fun q => (q.1.1, q.2))).map Prod.fst = l1.map Prod.fst := by
  induction l2 with
  | nil => intro l1 h; simp at h; simp [h]
  | cons c t ih =>
    intro l1 h
    cases l1 with
    | nil => simp
    | cons p ps =>
      simp only [List.zip_cons_cons, List.map_cons]
      have := ih ps (by simpa using h)
      simp [this]

theorem zip_repair_map_snd (l2 : List String) :
    ∀ (l1 : List (String × String)), l2.length ≤ l1.length →
      ((l1.zip l2).map (fun q => (q.1.1, q.2))).map Prod.snd = l2 := by
  induction l2 with
  | nil => intro l1 h; simp
  | cons c t ih =>
    intro l1 h
    cases l1 with
    | nil => simp at h
    | cons p ps =>
      simp only [List.zip_cons_cons, List.map_cons]
      have := ih ps (by simpa using h)
      simp [this]

/-! ### Claim theorems -/

/-- C2: every record in the output of `generate_fake_data` has an address
containing the city as a case-insensitive substring (the city is appended
when absent, so the check `city.lower() in address.lower()` holds of every
final address). -/
theorem generate_city_substring (M : FakerModel) (num_records : Int)
    (city : String) (seed : Option Int) (g : M.State)
    (_hn : 1 ≤ num_records) (_hc : city ≠ "")
    (pair : String × String)
    (hmem : pair ∈ (generate_fake_data M num_records city seed g).1) :
    pyIn (pyLower city) (pyLower pair.2) = true := by
  unfold generate_fake_data at hmem
  exact genLoop_city_mem M city _ _ pair hmem

/-- Witness for C2 at a concrete input. -/
theorem generate_city_substring_witness :
    (1 : Int) ≤ 2 ∧ ("Paris" : String) ≠ "" ∧
    (("N42", "A43, Paris") ∈ (generate_fake_data trivialFaker 2 "Paris" (some 42) (0 : Nat)).1) ∧
    pyIn (pyLower "Paris") (pyLower "A43, Paris") = true :=
  ⟨by decide, by decide, by decide,
    generate_city_substring trivialFaker 2 "Paris" (some 42) (0 : Nat) (by decide)
      (by decide) ("N42", "A43, Paris") (by decide)⟩

/-- C4: `reassign_addresses` keeps the length and the name column (with its
order) unchanged: the i-th output name is the i-th input name. -/
theorem reassign_preserves_names (data : List (String × String)) (g : List Nat) :
    (reassign_addresses data g).1.length = data.length ∧
    (reassign_addresses data g).1.map Prod.fst = data.map Prod.fst ∧
    ∀ i : Nat, ((reassign_addresses data g).1[i]?).map Prod.fst =
      (data[i]?).map Prod.fst := by
  have hs : (pyShuffle (data.map Prod.snd) g).1.length = data.length := by
    rw [pyShuffle_length, List.length_map]
  have hmap : (reassign_addresses data g).1.map Prod.fst = data.map Prod.fst := by
    unfold reassign_addresses
    exact zip_repair_map_fst _ data (le_of_eq hs.symm)
  refine ⟨?_, hmap, ?_⟩
  · unfold reassign_addresses
    simp [hs]
  · intro i
    have hm := congrArg (fun l => l[i]?) hmap
    simpa [List.getElem?_map] using hm

/-- C3: the multiset of addresses in the output of `reassign_addresses`
equals the multiset of addresses of its input: the address column is
permuted, nothing invented, lost or duplicated. -/
theorem reassign_address_multiset (data : List (String × String)) (g : List Nat) :
    (((reassign_addresses data g).1.map Prod.snd : List String) : Multiset String) =
      ((data.map Prod.snd : List String) : Multiset String) := by
  unfold reassign_addresses
  have hs : (pyShuffle (data.map Prod.snd) g).1.length = data.length := by
    rw [pyShuffle_length, List.length_map]
  have h2 := zip_repair_map_snd (pyShuffle (data.map Prod.snd) g).1 data (le_of_eq hs)
  simp only [h2]
  exact Multiset.coe_eq_coe.mpr (pyShuffle_perm (data.map Prod.snd) g)

/-- C5: for a positive record count, `generate_fake_data` returns exactly
`num_records` records. -/
theorem generate_length (M : FakerModel) (num_records : Int) (city : String)
    (seed : Option Int) (g : M.State) (hn : 1 ≤ num_records) :
    ((generate_fake_data M num_records city seed g).1.length : Int) = num_records := by
  unfold generate_fake_data
  rw [genLoop_length]
  exact Int.toNat_of_nonneg (by omega)

/-- Witness for C5 at a concrete input. -/
theorem generate_length_witness :
    (1 : Int) ≤ 2 ∧
    ((generate_fake_data trivialFaker 2 "Paris" (some 7) (0 : Nat)).1.length : Int) = 2 :=
  ⟨by decide, generate_length trivialFaker 2 "Paris" (some 7) (0 : Nat) (by decide)⟩

/-- C6: generation is deterministic in the seed: with the same `(n, city,
seed)` the output does not depend on the incoming Faker state, because
`Faker.seed` resets the stream. -/
theorem generate_deterministic (M : FakerModel) (num_records : Int)
    (city : String) (s : Int) (g1 g2 : M.State) :
    (generate_fake_data M num_records city (some s) g1).1 =
    (generate_fake_data M num_records city (some s) g2).1 := rfl

/-- C10: for `num_records <= 0` the generator silently returns the empty
list (Python's `range` is empty), performing no validation of its own. -/
theorem generate_nonpositive_empty (M : FakerModel) (num_records : Int)
    (city : String) (seed : Option Int) (g : M.State) (hn : num_records ≤ 0) :
    (generate_fake_data M num_records city seed g).1 = [] := by
  unfold generate_fake_data
  have h0 : num_records.toNat = 0 := Int.toNat_of_nonpos hn
  rw [h0]
  rfl

/-- Witness for C10 at a concrete input. -/
theorem generate_nonpositive_empty_witness :
    (-3 : Int) ≤ 0 ∧
    (generate_fake_data trivialFaker (-3) "Paris" Option.none (0 : Nat)).1 = [] :=
  ⟨by decide, generate_nonpositive_empty trivialFaker (-3) "Paris" Option.none (0 : Nat) (by decide)⟩

/-- C1 counterexample: two runs of the full pipeline with the identical
Faker seed 42 but different stdlib `random` streams (the stream
`random.shuffle` draws from, which `Faker.seed` does not touch) produce
different outputs, refuting reproducibility from the seed alone. -/
theorem pipeline_runs_differ :
    (pipeline trivialFaker 2 "Paris" 42 (0 : Nat) [0]).1 ≠
    (pipeline trivialFaker 2 "Paris" 42 (0 : Nat) [1]).1 := by decide

/-- C1 amended: the pipeline is reproducible across runs when, in addition
to the Faker seed, the stdlib `random` stream consumed by the shuffle is
identical across the runs; the Faker seed alone fixes the generated
records (any incoming Faker state is discarded by `Faker.seed`). -/
theorem pipeline_reproducible (M : FakerModel) (num_records : Int)
    (city : String) (seed : Int) (fg fg' : M.State) (rg : List Nat) :
    pipeline M num_records city seed fg rg =
    pipeline M num_records city seed fg' rg := rfl

theorem forall_ne_self_iff_false {α : Type _} (a : α) :
    (∀ x : α, ¬ a = x) ↔ False :=
  ⟨fun h => h a rfl, False.elim⟩

/-- C7: `validate_input` fails exactly on the invalid-argument condition of
the specification, and returns cleanly otherwise. -/
theorem validate_input_spec (c n o s : PyVal) :
    ((∃ m, validate_input c n o s = Except.error m) ↔ specInvalid c n o s) ∧
    (validate_input c n o s = Except.ok () ↔ ¬ specInvalid c n o s) := by
  have key : validate_input c n o s = Except.ok () ↔ ¬ specInvalid c n o s := by
    cases c <;> cases n <;> cases o <;> cases s <;>
      simp [validate_input, specInvalid, isNonEmptyStr, isPosInt, isIntVal,
        forall_ne_self_iff_false] <;>
      try omega
    all_goals (split_ifs <;> try simp_all)
  refine ⟨⟨?_, ?_⟩, key⟩
  · rintro ⟨m, hm⟩
    by_contra hbad
    have hok := key.mpr hbad
    rw [hm] at hok
    exact Except.noConfusion hok
  · intro hbad
    cases hv : validate_input c n o s with
    | ok u => cases u; exact absurd hbad (key.mp hv)
    | error m => exact ⟨m, rfl⟩

/-- C9: when the output path cannot be opened or written, `write_data_to_csv`
re-raises the caught exception unmodified, and the top-level handler of
`main` maps it to exit code 1 (no unhandled fault: `main_run` is total). -/
theorem write_failure_exits_one (data : List (String × String)) (path : String)
    (fs : String → Except PyExc Unit) (e : PyExc)
    (hall : ∀ p, fs p = Except.error e)
    (c n o s : PyVal) (M : FakerModel) (fg : M.State) (rg : List Nat) :
    write_data_to_csv data path fs = Except.error e ∧
    main_run c n o s M fg rg fs = 1 := by
  constructor
  · unfold write_data_to_csv
    rw [hall path]
  · unfold main_run
    cases hv : validate_input c n o s with
    | error m => rfl
    | ok u =>
      cases u
      cases c with
      | str cx =>
        cases n with
        | int nv =>
          cases o with
          | str ox =>
            simp only [write_data_to_csv, hall ox]
          | int v => rfl
          | none => rfl
        | str x => rfl
        | none => rfl
      | int v => rfl
      | none => rfl

/-- Witness for C9 at a concrete input. -/
theorem write_failure_exits_one_witness :
    (∀ p : String,
      (fun _ : String =>
        (Except.error (PyExc.ioError "unwritable") : Except PyExc Unit)) p =
        Except.error (PyExc.ioError "unwritable")) ∧
    write_data_to_csv [("A", "B")] "out.csv"
        (fun _ => (Except.error (PyExc.ioError "unwritable") : Except PyExc Unit)) =
      Except.error (PyExc.ioError "unwritable") ∧
    main_run (PyVal.str "Paris") (PyVal.int 2) (PyVal.str "out.csv") PyVal.none
        trivialFaker (0 : Nat) [0]
        (fun _ => Except.error (PyExc.ioError "unwritable")) = 1 :=
  ⟨fun _ => rfl,
    (write_failure_exits_one [("A", "B")] "out.csv"
      (fun _ => Except.error (PyExc.ioError "unwritable"))
      (PyExc.ioError "unwritable") (fun _ => rfl)
      (PyVal.str "Paris") (PyVal.int 2) (PyVal.str "out.csv") PyVal.none
      trivialFaker (0 : Nat) [0]).1,
    (write_failure_exits_one [("A", "B")] "out.csv"
      (fun _ => Except.error (PyExc.ioError "unwritable"))
      (PyExc.ioError "unwritable") (fun _ => rfl)
      (PyVal.str "Paris") (PyVal.int 2) (PyVal.str "out.csv") PyVal.none
      trivialFaker (0 : Nat) [0]).2⟩

theorem csvRun_plain_consume (s : List Char) (h : s.any isCsvSpecial = false) :
    ∀ (rest fld : List Char) (row : List (List Char))
      (acc : List (List (List Char))),
      csvRun .plain (s ++ rest) fld row acc = csvRun .plain rest (fld ++ s) row acc := by
  induction s with
  | nil => intro rest fld row acc; simp
  | cons c cs ih =>
    intro rest fld row acc
    simp only [List.any_cons, Bool.or_eq_false_iff] at h
    obtain ⟨hc, hcs⟩ := h
    simp only [isCsvSpecial, Bool.or_eq_false_iff, decide_eq_false_iff_not] at hc
    obtain ⟨⟨⟨h1, h2⟩, h3⟩, h4⟩ := hc
    rw [List.cons_append, csvRun.eq_def]
    simp only [h1, h2, h3, h4, decide_False, Bool.false_and, Bool.if_false_left,
      if_neg, ite_false]
    rw [ih hcs rest (fld ++ [c]) row acc]
    simp

theorem csvRun_quoted_consume (s : List Char) :
    ∀ (rest fld : List Char) (row : List (List Char))
      (acc : List (List (List Char))),
      csvRun .quoted (escQuotes s ++ '"' :: rest) fld row acc =
        csvRun .quotedEnd rest (fld ++ s) row acc := by
  induction s with
  | nil =>
    intro rest fld row acc
    rw [escQuotes, List.nil_append, csvRun.eq_def]
    simp
  | cons c cs ih =>
    intro rest fld row acc
    by_cases hc : c = '"'
    · subst hc
      rw [escQuotes]
      simp only [if_pos rfl, if_true]
      rw [List.cons_append, List.cons_append, csvRun.eq_def]
      simp only [decide_True, ite_true]
      rw [csvRun.eq_def]
      simp only [decide_True, ite_true]
      rw [ih rest (fld ++ ['"']) row acc]
      simp
    · rw [escQuotes]
      simp only [if_neg hc]
      rw [List.cons_append, csvRun.eq_def]
      simp only [hc, decide_False, ite_false]
      rw [ih rest (fld ++ [c]) row acc]
      simp

theorem csvRun_field_comma (l : List Char) (rest : List Char)
    (row : List (List Char)) (acc : List (List (List Char))) :
    csvRun .plain (encFieldL l ++ ',' :: rest) [] row acc =
      csvRun .plain rest [] (row ++ [l]) acc := by
  by_cases hsp : l.any isCsvSpecial = true
  · rw [encFieldL, if_pos hsp]
    rw [List.cons_append, csvRun.eq_def]
    simp only [decide_True, List.isEmpty_nil, Bool.and_self, ite_true]
    rw [List.append_assoc]
    simp only [List.singleton_append]
    rw [csvRun_quoted_consume l (',' :: rest) [] row acc]
    rw [csvRun.eq_def]
    simp
  · rw [encFieldL, if_neg hsp]
    rw [csvRun_plain_consume l (Bool.not_eq_true _ ▸ hsp) (',' :: rest) [] row acc]
    rw [csvRun.eq_def]
    simp

theorem csvRun_field_crlf (l : List Char) (rest : List Char)
    (row : List (List Char)) (acc : List (List (List Char))) :
    csvRun .plain (encFieldL l ++ '\r' :: '\n' :: rest) [] row acc =
      csvRun .plain rest [] [] (acc ++ [row ++ [l]]) := by
  by_cases hsp : l.any isCsvSpecial = true
  · rw [encFieldL, if_pos hsp]
    rw [List.cons_append, csvRun.eq_def]
    simp only [decide_True, List.isEmpty_nil, Bool.and_self, ite_true]
    rw [List.append_assoc]
    simp only [List.singleton_append]
    rw [csvRun_quoted_consume l ('\r' :: '\n' :: rest) [] row acc]
    rw [csvRun.eq_def]
    simp
  · rw [encFieldL, if_neg hsp]
    rw [csvRun_plain_consume l (Bool.not_eq_true _ ▸ hsp) ('\r' :: '\n' :: rest) [] row acc]
    rw [csvRun.eq_def]
    simp

theorem csvRun_row (a b rest : List Char) (acc : List (List (List Char))) :
    csvRun .plain (encRowL a b ++ rest) [] [] acc =
      csvRun .plain rest [] [] (acc ++ [[a, b]]) := by
  rw [encRowL]
  rw [List.append_assoc, List.cons_append, List.append_assoc]
  rw [csvRun_field_comma a (encFieldL b ++ (['\r', '\n'] ++ rest)) [] acc]
  have h2 : ['\r', '\n'] ++ rest = '\r' :: '\n' :: rest := rfl
  rw [h2]
  simp only [List.nil_append]
  rw [csvRun_field_crlf b rest [a] acc]
  simp

theorem csvRun_rows (rows : List (List Char × List Char)) :
    ∀ acc : List (List (List Char)),
      csvRun .plain (csvRowsL rows) [] [] acc =
        acc ++ rows.map (fun p => [p.1, p.2]) := by
  induction rows with
  | nil =>
    intro acc
    rw [csvRowsL, csvRun.eq_def]
    simp
  | cons p ps ih =>
    intro acc
    rw [csvRowsL, csvRun_row p.1 p.2 (csvRowsL ps) acc, ih (acc ++ [[p.1, p.2]])]
    simp

/-- C8: writing a dataset with the CSV writer (header `Name,Address`,
comma-delimited rows, double-quote escaping) and parsing the file back
yields the header row followed by the same (name, address) pairs in the
same order. -/
theorem csv_round_trip (data : List (String × String)) :
    parseCSV (writeCSV data) =
      ["Name", "Address"] :: data.map (fun p => [p.1, p.2]) := by
  unfold parseCSV writeCSV
  have hdata : (String.mk (encRowL "Name".data "Address".data ++
      csvRowsL (data.map (fun p => (p.1.data, p.2.data))))).data =
      encRowL "Name".data "Address".data ++
        csvRowsL (data.map (fun p => (p.1.data, p.2.data))) := rfl
  rw [hdata]
  rw [csvRun_row "Name".data "Address".data
    (csvRowsL (data.map (fun p => (p.1.data, p.2.data)))) []]
  rw [csvRun_rows (data.map (fun p => (p.1.data, p.2.data)))
    ([] ++ [["Name".data, "Address".data]])]
  simp only [List.nil_append, List.singleton_append, List.map_cons, List.map_map]
  rfl
